import Mathlib

/-!
Verification of the kori backend (Express/Mongoose REST API) against its
natural-language specification.  The service and model code is shallowly
embedded: Mongoose documents become Lean structures, `Date.now()` becomes an
explicit `now : Nat` (milliseconds), database lookups become pure lookups over
explicit stores, bcrypt comparison becomes string equality on the stored
credential, and thrown `ApiError`s become `Except ApiError` results.
-/

namespace Kori

/-- Error taxonomy, from `src/backend/src/utils/ApiError.js`: an `ApiError`
carries an HTTP status code and a message; the static constructors fix the
status code. -/
structure ApiError where
  statusCode : Nat
  message : String
deriving DecidableEq, Repr

def ApiError.badRequest (m : String) : ApiError := ⟨400, m⟩

def ApiError.unauthorized (m : String) : ApiError := ⟨401, m⟩

def ApiError.notFound (m : String) : ApiError := ⟨404, m⟩

def ApiError.conflict (m : String) : ApiError := ⟨409, m⟩

/-! ## Account lockout (User model + AuthService.login)

From `src/backend/src/models/User.js` and `src/backend/src/config/config.js`.
-/

/-- `config.MAX_LOGIN_ATTEMPTS` from `src/backend/src/config/config.js`. -/
def MAX_LOGIN_ATTEMPTS : Nat := 5

/-- `config.LOCK_TIME` (2 hours in milliseconds) from
`src/backend/src/config/config.js`. -/
def LOCK_TIME : Nat := 2 * 60 * 60 * 1000

/-- The lockout-relevant part of a `User` document
(`src/backend/src/models/User.js`).  `password` models the stored credential;
`comparePassword` (a bcrypt comparison) is modelled as string equality.
`lockUntil` is absent (`none`) or a millisecond timestamp. -/
structure AuthUser where
  password : String
  loginAttempts : Nat
  lockUntil : Option Nat
deriving DecidableEq, Repr

/-- The `isLocked` virtual: `!!(this.lockUntil && this.lockUntil > Date.now())`. -/
def isLocked (u : AuthUser) (now : Nat) : Bool :=
  match u.lockUntil with
  | some t => now < t
  | none => false

/-- The `$inc` branch of `incLoginAttempts`: increment the counter and, if the
incremented counter reaches `MAX_LOGIN_ATTEMPTS` and the account is not
currently locked, set `lockUntil := now + LOCK_TIME`. -/
def incAttemptsStep (u : AuthUser) (now : Nat) : AuthUser :=
  { u with
    loginAttempts := u.loginAttempts + 1
    lockUntil :=
      if MAX_LOGIN_ATTEMPTS ≤ u.loginAttempts + 1 ∧ ¬ isLocked u now then
        some (now + LOCK_TIME)
      else u.lockUntil }

/-- `userSchema.methods.incLoginAttempts`: if a previous lock exists and has
expired (`lockUntil < Date.now()`), restart the counter at 1 and clear the
lock; otherwise increment (and possibly set a fresh lock). -/
def incLoginAttempts (u : AuthUser) (now : Nat) : AuthUser :=
  match u.lockUntil with
  | some t =>
    if t < now then { u with loginAttempts := 1, lockUntil := none }
    else incAttemptsStep u now
  | none => incAttemptsStep u now

/-- Failure reasons from `userSchema.statics.getAuthFailureReasons`. -/
inductive AuthReason where
  | userMissing
  | passwordIncorrect
  | maxAttempts
deriving DecidableEq, Repr

/-- Outcome of `User.authenticate`. -/
inductive AuthOutcome where
  | success
  | failure (reason : AuthReason)
deriving DecidableEq, Repr

/-- `userSchema.statics.authenticate(email, password)`.  The `findOne`
result is passed in as `mu`; the second component of the result is the user
record as persisted after the call (the `updateOne` side effects). -/
def authenticate (mu : Option AuthUser) (password : String) (now : Nat) :
    AuthOutcome × Option AuthUser :=
  match mu with
  | none => (.failure .userMissing, none)
  | some u =>
    if isLocked u now then
      (.failure .maxAttempts, some (incLoginAttempts u now))
    else if u.password = password then
      let u' :=
        if 0 < u.loginAttempts then
          { u with loginAttempts := 0, lockUntil := none }
        else u
      (.success, some u')
    else
      (.failure .passwordIncorrect, some (incLoginAttempts u now))

/-- The locked-account message thrown by `AuthService.login`. -/
def lockedMessage : String :=
  "Account temporarily locked due to too many failed login attempts. Please try again later."

/-- `AuthService.login` (`src/backend/src/services/AuthService.js`), restricted
to its authentication outcome: failure reasons are mapped to `Unauthorized`
errors.  Token issuance and response sanitisation on success are outside this
claim and are represented by the `Unit` payload.  The second component is the
persisted user record after the call. -/
def login (mu : Option AuthUser) (password : String) (now : Nat) :
    Except ApiError Unit × Option AuthUser :=
  let r := authenticate mu password now
  match r.1 with
  | .success => (.ok (), r.2)
  | .failure .userMissing =>
      (.error (ApiError.unauthorized "Invalid email or password"), r.2)
  | .failure .passwordIncorrect =>
      (.error (ApiError.unauthorized "Invalid email or password"), r.2)
  | .failure .maxAttempts =>
      (.error (ApiError.unauthorized lockedMessage), r.2)

/-- The persisted user state after one `login` call. -/
def loginState (mu : Option AuthUser) (password : String) (now : Nat) :
    Option AuthUser :=
  (login mu password now).2

/-- A failed login against a user with no lock recorded increments the attempt
counter and sets the lock exactly when the counter reaches
`MAX_LOGIN_ATTEMPTS`. -/
theorem login_fail_step (u : AuthUser) (p : String) (t : Nat)
    (hl : u.lockUntil = none) (hp : p ≠ u.password) :
    login (some u) p t =
      (.error (ApiError.unauthorized "Invalid email or password"),
       some { u with
              loginAttempts := u.loginAttempts + 1
              lockUntil :=
                if MAX_LOGIN_ATTEMPTS ≤ u.loginAttempts + 1 then
                  some (t + LOCK_TIME)
                else none }) := by
  have hp' : u.password ≠ p := Ne.symm hp
  simp [login, authenticate, isLocked, incLoginAttempts, incAttemptsStep, hl, hp']

/-- **C1.** For every account, after 5 consecutive failed login attempts a
lock-until timestamp two hours (`LOCK_TIME`) in the future is set; every login
attempt while that timestamp is in the future fails `Unauthorized` with the
locked message, whatever password is supplied; once the lock has expired, the
next failed attempt resets the attempt counter to 1 and clears the lock; and a
successful login resets the counter to 0 and clears the lock (stated for
reachable states, in which a recorded lock implies a positive counter). -/
theorem C1_account_lockout :
    (∀ (u : AuthUser) (p₁ p₂ p₃ p₄ p₅ : String) (t₁ t₂ t₃ t₄ t₅ : Nat),
        u.loginAttempts = 0 → u.lockUntil = none →
        p₁ ≠ u.password → p₂ ≠ u.password → p₃ ≠ u.password →
        p₄ ≠ u.password → p₅ ≠ u.password →
        loginState (loginState (loginState (loginState (loginState
            (some u) p₁ t₁) p₂ t₂) p₃ t₃) p₄ t₄) p₅ t₅ =
          some ⟨u.password, 5, some (t₅ + LOCK_TIME)⟩) ∧
    (∀ (u : AuthUser) (p : String) (L now : Nat),
        u.lockUntil = some L → now < L →
        (login (some u) p now).1 = .error (ApiError.unauthorized lockedMessage)) ∧
    (∀ (u : AuthUser) (p : String) (L now : Nat),
        u.lockUntil = some L → L < now → p ≠ u.password →
        loginState (some u) p now = some ⟨u.password, 1, none⟩ ∧
        (login (some u) p now).1 =
          .error (ApiError.unauthorized "Invalid email or password")) ∧
    (∀ (u : AuthUser) (now : Nat),
        isLocked u now = false →
        (u.lockUntil = none ∨ 0 < u.loginAttempts) →
        (login (some u) u.password now).1 = .ok () ∧
        loginState (some u) u.password now = some ⟨u.password, 0, none⟩) := by
  refine ⟨?_, ?_, ?_, ?_⟩
  · intro u p₁ p₂ p₃ p₄ p₅ t₁ t₂ t₃ t₄ t₅ h0 hnone hp1 hp2 hp3 hp4 hp5
    have s1 : loginState (some u) p₁ t₁ = some ⟨u.password, 1, none⟩ := by
      rw [loginState, login_fail_step u p₁ t₁ hnone hp1]
      simp [h0, MAX_LOGIN_ATTEMPTS]
    have s2 : loginState (some ⟨u.password, 1, none⟩) p₂ t₂ =
        some ⟨u.password, 2, none⟩ := by
      rw [loginState, login_fail_step ⟨u.password, 1, none⟩ p₂ t₂ rfl hp2]
      simp [MAX_LOGIN_ATTEMPTS]
    have s3 : loginState (some ⟨u.password, 2, none⟩) p₃ t₃ =
        some ⟨u.password, 3, none⟩ := by
      rw [loginState, login_fail_step ⟨u.password, 2, none⟩ p₃ t₃ rfl hp3]
      simp [MAX_LOGIN_ATTEMPTS]
    have s4 : loginState (some ⟨u.password, 3, none⟩) p₄ t₄ =
        some ⟨u.password, 4, none⟩ := by
      rw [loginState, login_fail_step ⟨u.password, 3, none⟩ p₄ t₄ rfl hp4]
      simp [MAX_LOGIN_ATTEMPTS]
    have s5 : loginState (some ⟨u.password, 4, none⟩) p₅ t₅ =
        some ⟨u.password, 5, some (t₅ + LOCK_TIME)⟩ := by
      rw [loginState, login_fail_step ⟨u.password, 4, none⟩ p₅ t₅ rfl hp5]
      simp [MAX_LOGIN_ATTEMPTS]
    rw [s1, s2, s3, s4, s5]
  · intro u p L now hL hlt
    simp [login, authenticate, isLocked, hL, hlt]
  · intro u p L now hL hgt hp
    have hnl : ¬ now < L := not_lt.mpr hgt.le
    have hp' : u.password ≠ p := Ne.symm hp
    constructor
    · simp [loginState, login, authenticate, isLocked, incLoginAttempts, hL,
        hgt, hnl, hp']
    · simp [login, authenticate, isLocked, hL, hnl, hp']
  · intro u now hL hOr
    obtain ⟨pw, a, l⟩ := u
    by_cases ha : 0 < a
    · constructor
      · simp [login, authenticate, hL, ha]
      · simp [loginState, login, authenticate, hL, ha]
    · have h0 : a = 0 := Nat.eq_zero_of_not_pos ha
      have hnone : l = none := by
        rcases hOr with h | h
        · exact h
        · exact absurd h ha
      constructor
      · simp [login, authenticate, hL, ha]
      · simp [loginState, login, authenticate, isLocked, hL, ha, h0, hnone]

/-- Concrete instantiation of `C1_account_lockout`: a user with password
`"pw"`, five failed attempts at times 0..4, a locked attempt, a post-expiry
failed attempt, and a successful login. -/
theorem C1_account_lockout_witness :
    (loginState (loginState (loginState (loginState (loginState
        (some ⟨"pw", 0, none⟩) "x" 0) "x" 1) "x" 2) "x" 3) "x" 4 =
      some ⟨"pw", 5, some (4 + LOCK_TIME)⟩) ∧
    ((login (some ⟨"pw", 5, some 1000⟩) "pw" 500).1 =
      .error (ApiError.unauthorized lockedMessage)) ∧
    (loginState (some ⟨"pw", 5, some 1000⟩) "x" 2000 = some ⟨"pw", 1, none⟩) ∧
    ((login (some ⟨"pw", 3, some 1000⟩) "pw" 2000).1 = .ok ()) := by
  refine ⟨?_, ?_, ?_, ?_⟩
  · exact C1_account_lockout.1 ⟨"pw", 0, none⟩ "x" "x" "x" "x" "x" 0 1 2 3 4
      rfl rfl (by decide) (by decide) (by decide) (by decide) (by decide)
  · exact C1_account_lockout.2.1 ⟨"pw", 5, some 1000⟩ "pw" 1000 500 rfl
      (by decide)
  · exact (C1_account_lockout.2.2.1 ⟨"pw", 5, some 1000⟩ "x" 1000 2000 rfl
      (by decide) (by decide)).1
  · exact (C1_account_lockout.2.2.2 ⟨"pw", 3, some 1000⟩ 2000 (by decide)
      (Or.inr (by decide))).1

/-! ## Password reset token (AuthService.generatePasswordResetToken)

From `src/backend/src/services/AuthService.js` (identical in
`src/unnamed/part_004`).
-/

/-- The reset-relevant part of a `User` document. -/
structure ResetUser where
  resetPasswordToken : Option String
  resetPasswordExpire : Option Nat
deriving DecidableEq, Repr

/-- The object returned by `generatePasswordResetToken`:  the message, and the
`resetToken` field that the existing-account branch adds. -/
structure ResetResponse where
  message : String
  resetToken : Option String
deriving DecidableEq, Repr

/-- `AuthService.generatePasswordResetToken(email)`.  `mu` is the result of
`User.findOne({email})`; `resetToken` is the fresh
`crypto.randomBytes(32).toString("hex")` value; `sha256` is the hex SHA-256
digest function.  The second component is the persisted user record. -/
def generatePasswordResetToken (mu : Option ResetUser) (resetToken : String)
    (sha256 : String → String) (now : Nat) :
    ResetResponse × Option ResetUser :=
  match mu with
  | none =>
    ({ message := "If an account with that email exists, a password reset link has been sent.",
       resetToken := none }, none)
  | some u =>
    ({ message := "Password reset token generated", resetToken := some resetToken },
     some { u with
            resetPasswordToken := some (sha256 resetToken)
            resetPasswordExpire := some (now + 10 * 60 * 1000) })

/-- **C2, counterexample.**  The claim that `generatePasswordResetToken`
returns the same generic success message whether or not an account exists is
false: with the same fresh token and hash function, the no-account branch and
the existing-account branch return different messages, and the
existing-account branch additionally returns the raw reset token. -/
theorem C2_counterexample :
    (generatePasswordResetToken none "tok" id 0).1.message ≠
      (generatePasswordResetToken (some ⟨none, none⟩) "tok" id 0).1.message ∧
    (generatePasswordResetToken (some ⟨none, none⟩) "tok" id 0).1.resetToken =
      some "tok" := by
  constructor
  · decide
  · rfl

/-- **C2, amended.**  `generatePasswordResetToken` returns the generic
message (and no token) when no account with the email exists; when the account
exists it returns a different message (`"Password reset token generated"`)
together with the raw reset token — so the returned value does distinguish
existing from non-existing accounts — and it stores the SHA-256 hash of the
fresh token with an expiry 10 minutes in the future. -/
theorem C2_reset_token_branches :
    ∀ (u : ResetUser) (tok : String) (sha256 : String → String) (now : Nat),
      ((generatePasswordResetToken none tok sha256 now).1.message =
        "If an account with that email exists, a password reset link has been sent." ∧
       (generatePasswordResetToken none tok sha256 now).1.resetToken = none ∧
       (generatePasswordResetToken none tok sha256 now).2 = none) ∧
      ((generatePasswordResetToken (some u) tok sha256 now).1.message =
        "Password reset token generated" ∧
       (generatePasswordResetToken (some u) tok sha256 now).1.resetToken =
        some tok ∧
       (generatePasswordResetToken (some u) tok sha256 now).2 =
        some ⟨some (sha256 tok), some (now + 10 * 60 * 1000)⟩) := by
  intro u tok sha256 now
  exact ⟨⟨rfl, rfl, rfl⟩, ⟨rfl, rfl, rfl⟩⟩

/-! ## Refresh-token rotation and revocation (AuthService + User model)

From `src/backend/src/services/AuthService.js` and
`src/backend/src/models/User.js`.
-/

/-- Outcome of `JWTService.verifyRefreshToken`: a decoded payload (its
`userId`), or one of the two error classes the service catches
(`TokenExpiredError`, `JsonWebTokenError`). -/
inductive VerifyResult where
  | ok (userId : Nat)
  | expired
  | invalid
deriving DecidableEq, Repr

/-- The refresh-token-relevant part of a `User` document: the stored token
strings (`refreshTokens[].token`). -/
structure TokenUser where
  refreshTokens : List String
deriving DecidableEq, Repr

/-- `userSchema.methods.removeRefreshToken`: filter out every record whose
token equals the given one. -/
def removeRefreshToken (u : TokenUser) (refreshToken : String) : TokenUser :=
  { u with refreshTokens := u.refreshTokens.filter (fun t => t ≠ refreshToken) }

/-- The user collection, as the `User.findById` lookup. -/
abbrev UserStore := Nat → Option TokenUser

/-- `AuthService.refreshAccessToken(refreshToken)`.  `verify` models
`JWTService.verifyRefreshToken` (signature/expiry check), `sign` models
`JWTService.generateAccessToken` on the `{userId, email}` payload.  The
second component is the user collection after the call (the source performs
no write here). -/
def refreshAccessToken (verify : String → VerifyResult) (users : UserStore)
    (sign : Nat → String) (refreshToken : String) :
    Except ApiError String × UserStore :=
  match verify refreshToken with
  | .expired => (.error (ApiError.unauthorized "Refresh token has expired"), users)
  | .invalid => (.error (ApiError.unauthorized "Invalid refresh token"), users)
  | .ok uid =>
    match users uid with
    | none => (.error (ApiError.unauthorized "User not found"), users)
    | some u =>
      if u.refreshTokens.any (fun t => t = refreshToken) then
        (.ok (sign uid), users)
      else
        (.error (ApiError.unauthorized "Invalid refresh token"), users)

/-- `AuthService.logout(userId, refreshToken)`: look the user up, remove that
refresh token, persist. -/
def logout (users : UserStore) (userId : Nat) (refreshToken : String) :
    Except ApiError Unit × UserStore :=
  match users userId with
  | none => (.error (ApiError.notFound "User not found"), users)
  | some u =>
    let u' := removeRefreshToken u refreshToken
    (.ok (), fun i => if i = userId then some u' else users i)

/-- **C3.**  `refreshAccessToken` succeeds exactly when the token verifies and
the exact token string is stored in the looked-up user's token list, and then
returns a new access token; in every other case it fails `Unauthorized`; it
never changes the stored token lists; and after `logout(userId, token)`
removes a token, a subsequent `refreshAccessToken` with that token fails
`Unauthorized`. -/
theorem C3_refresh_token_revocation :
    (∀ (verify : String → VerifyResult) (users : UserStore)
        (sign : Nat → String) (tok a : String),
        (refreshAccessToken verify users sign tok).1 = .ok a →
        ∃ uid u, verify tok = .ok uid ∧ users uid = some u ∧
          tok ∈ u.refreshTokens ∧ a = sign uid) ∧
    (∀ (verify : String → VerifyResult) (users : UserStore)
        (sign : Nat → String) (tok : String),
        (¬ ∃ uid u, verify tok = .ok uid ∧ users uid = some u ∧
            tok ∈ u.refreshTokens) →
        ∃ m, (refreshAccessToken verify users sign tok).1 =
          .error (ApiError.unauthorized m)) ∧
    (∀ (verify : String → VerifyResult) (users : UserStore)
        (sign : Nat → String) (tok : String),
        (refreshAccessToken verify users sign tok).2 = users) ∧
    (∀ (verify : String → VerifyResult) (users : UserStore)
        (sign : Nat → String) (uid : Nat) (u : TokenUser) (tok : String),
        verify tok = .ok uid → users uid = some u →
        (refreshAccessToken verify (logout users uid tok).2 sign tok).1 =
          .error (ApiError.unauthorized "Invalid refresh token")) := by
  refine ⟨?_, ?_, ?_, ?_⟩
  · intro verify users sign tok a h
    cases hv : verify tok with
    | expired => simp [refreshAccessToken, hv] at h
    | invalid => simp [refreshAccessToken, hv] at h
    | ok uid =>
      cases hu : users uid with
      | none => simp [refreshAccessToken, hv, hu] at h
      | some u =>
        by_cases hin : u.refreshTokens.any (fun t => t = tok)
        · have hmem : tok ∈ u.refreshTokens := by
            rcases List.any_eq_true.mp hin with ⟨x, hx, hxe⟩
            rcases of_decide_eq_true hxe with rfl
            exact hx
          refine ⟨uid, u, hv ▸ rfl, hu, hmem, ?_⟩
          simp [refreshAccessToken, hv, hu, hin] at h
          exact h.symm
        · simp [refreshAccessToken, hv, hu, hin] at h
  · intro verify users sign tok hno
    cases hv : verify tok with
    | expired => exact ⟨"Refresh token has expired", by simp [refreshAccessToken, hv]⟩
    | invalid => exact ⟨"Invalid refresh token", by simp [refreshAccessToken, hv]⟩
    | ok uid =>
      cases hu : users uid with
      | none => exact ⟨"User not found", by simp [refreshAccessToken, hv, hu]⟩
      | some u =>
        by_cases hin : u.refreshTokens.any (fun t => t = tok)
        · exfalso
          rcases List.any_eq_true.mp hin with ⟨x, hx, hxe⟩
          rcases of_decide_eq_true hxe with rfl
          exact hno ⟨uid, u, hv, hu, hx⟩
        · exact ⟨"Invalid refresh token", by simp [refreshAccessToken, hv, hu, hin]⟩
  · intro verify users sign tok
    cases hv : verify tok with
    | expired => simp [refreshAccessToken, hv]
    | invalid => simp [refreshAccessToken, hv]
    | ok uid =>
      cases hu : users uid with
      | none => simp [refreshAccessToken, hv, hu]
      | some u =>
        by_cases hin : u.refreshTokens.any (fun t => t = tok)
        · simp [refreshAccessToken, hv, hu, hin]
        · simp [refreshAccessToken, hv, hu, hin]
  · intro verify users sign uid u tok hv hu
    have hstore : (logout users uid tok).2 uid =
        some (removeRefreshToken u tok) := by
      simp [logout, hu]
    have hnone : (removeRefreshToken u tok).refreshTokens.any
        (fun t => t = tok) = false := by
      simp only [removeRefreshToken]
      rw [List.any_eq_false]
      intro x hx
      rcases List.mem_filter.mp hx with ⟨_, hne⟩
      simpa using hne
    simp [refreshAccessToken, hv, hstore, hnone]

/-- Concrete token store for the `C3` witness: user 1 holds tokens
`"rt"` and `"other"`. -/
def sampleUsers : UserStore :=
  fun i => if i = 1 then some ⟨["rt", "other"]⟩ else none

/-- Concrete verifier for the `C3` witness: `"rt"` decodes to user 1,
everything else is invalid. -/
def sampleVerify : String → VerifyResult :=
  fun t => if t = "rt" then .ok 1 else .invalid

/-- Concrete instantiation of `C3_refresh_token_revocation`: a stored token
succeeds, an unverifiable token fails `Unauthorized`, and a token removed by
`logout` fails `Unauthorized`. -/
theorem C3_refresh_token_revocation_witness :
    (∃ uid u, sampleVerify "rt" = .ok uid ∧ sampleUsers uid = some u ∧
      "rt" ∈ u.refreshTokens ∧ "at" = (fun _ : Nat => "at") uid) ∧
    (∃ m, (refreshAccessToken sampleVerify sampleUsers (fun _ => "at") "bad").1 =
      .error (ApiError.unauthorized m)) ∧
    ((refreshAccessToken sampleVerify
        (logout sampleUsers 1 "rt").2 (fun _ => "at") "rt").1 =
      .error (ApiError.unauthorized "Invalid refresh token")) := by
  refine ⟨?_, ?_, ?_⟩
  · exact C3_refresh_token_revocation.1 sampleVerify sampleUsers
      (fun _ => "at") "rt" "at" (by simp [refreshAccessToken, sampleVerify, sampleUsers])
  · exact C3_refresh_token_revocation.2.1 sampleVerify sampleUsers
      (fun _ => "at") "bad"
      (by
        rintro ⟨uid, u, hv, -, -⟩
        simp [sampleVerify] at hv)
  · exact C3_refresh_token_revocation.2.2.2 sampleVerify sampleUsers
      (fun _ => "at") 1 ⟨["rt", "other"]⟩ "rt" (by simp [sampleVerify])
      (by simp [sampleUsers])

/-! ## Chat data model

From `src/backend/src/services/ChatService.js`, `src/backend/src/models/Chat.js`
and the schema revisions in `src/unnamed/part_006`.  `ChatDoc` carries the
union of the chat-document fields that `ChatService` reads (the coexisting
schema revisions are not reconciled in the source; the thread-based revision
of `src/unnamed/part_006` supplies `activePrompts` and the
`addMessage(threadId, role, content, metadata)` method that `ChatService`
invokes, the embedded revision supplies `settings`/`tags`/`title`).
-/

/-- Chat `settings` sub-document (embedded-message schema revision). -/
structure ChatSettings where
  maxMessages : Nat
  autoArchive : Bool
  autoArchiveDays : Nat
deriving DecidableEq, Repr

/-- `profile` sub-document of a prompt. -/
structure PromptProfile where
  name : Option String
  designation : Option String
  age : Option Nat
deriving DecidableEq, Repr

/-- A `Prompt` sub-document (persona) embedded in a chat. -/
structure Prompt where
  id : String
  background : Option String
  category : Option String
  profile : PromptProfile
  isActive : Bool
deriving DecidableEq, Repr

/-- An individual role-tagged message inside a thread. -/
structure IndividualMessage where
  role : String
  content : String
  timestamp : Nat
deriving DecidableEq, Repr

/-- A message thread (thread-based schema revision): an `id`, the ordered
messages, and a soft-delete flag. -/
structure MessageThread where
  id : String
  messages : List IndividualMessage
  deleted : Bool
deriving DecidableEq, Repr

/-- A chat document. -/
structure ChatDoc where
  id : String
  userId : String
  title : Option String
  status : String
  settings : ChatSettings
  tags : List String
  initialPrompt : Option String
  prompts : List Prompt
  messages : List MessageThread
deriving DecidableEq, Repr

/-- A hexadecimal digit character. -/
def isHexDigitChar (c : Char) : Bool :=
  c.isDigit || ('a' ≤ c && c ≤ 'f') || ('A' ≤ c && c ≤ 'F')

/-- `mongoose.Types.ObjectId.isValid`: a 24-character hexadecimal string, or
any 12-character string (a 12-byte buffer). -/
def isValidObjectId (s : String) : Bool :=
  s.length == 12 || (s.length == 24 && s.data.all isHexDigitChar)

/-- `Chat.findOne({_id: chatId, userId})`. -/
def findChat (chats : List ChatDoc) (chatId userId : String) : Option ChatDoc :=
  chats.find? (fun c => c.id == chatId && c.userId == userId)

/-- Primary-key uniqueness of `_id` in the chat collection. -/
def UniqueChatIds (chats : List ChatDoc) : Prop :=
  ∀ c₁ ∈ chats, ∀ c₂ ∈ chats, c₁.id = c₂.id → c₁ = c₂

/-- `ChatService.getChatById({chatId, userId, includeMessages})`: reject a
malformed id with `BadRequest`, look the chat up by `(id, owner)`, fail
`NotFound` when nothing matches.  (The `includeMessages` flag only drops the
`messages` field from the query projection and is not modelled.) -/
def getChatById (chats : List ChatDoc) (chatId userId : String) :
    Except ApiError ChatDoc :=
  if isValidObjectId chatId then
    match findChat chats chatId userId with
    | some c => .ok c
    | none => .error (ApiError.notFound "Chat not found")
  else .error (ApiError.badRequest "Invalid chat ID")

/-- **C4.**  `getChatById` on another user's chat fails `NotFound` (same
error as a missing chat), on a malformed id fails `BadRequest`, and on the
owner's well-formed id returns the chat. -/
theorem C4_getChatById_ownership :
    (∀ (chats : List ChatDoc) (c : ChatDoc) (b : String),
        UniqueChatIds chats → c ∈ chats → isValidObjectId c.id = true →
        c.userId ≠ b →
        getChatById chats c.id b = .error (ApiError.notFound "Chat not found")) ∧
    (∀ (chats : List ChatDoc) (cid uid : String),
        isValidObjectId cid = false →
        getChatById chats cid uid = .error (ApiError.badRequest "Invalid chat ID")) ∧
    (∀ (chats : List ChatDoc) (c : ChatDoc),
        UniqueChatIds chats → c ∈ chats → isValidObjectId c.id = true →
        getChatById chats c.id c.userId = .ok c) := by
  refine ⟨?_, ?_, ?_⟩
  · intro chats c b huniq hmem hvalid hne
    have hfind : findChat chats c.id b = none := by
      rw [findChat, List.find?_eq_none]
      intro x hx hpx
      have hid : x.id = c.id := by
        have := (Bool.and_eq_true _ _).mp hpx
        exact eq_of_beq this.1
      have hxb : x.userId = b := by
        have := (Bool.and_eq_true _ _).mp hpx
        exact eq_of_beq this.2
      have : x = c := huniq x hx c hmem hid
      exact hne (this ▸ hxb)
    simp [getChatById, hvalid, hfind]
  · intro chats cid uid hinvalid
    simp [getChatById, hinvalid]
  · intro chats c huniq hmem hvalid
    cases hfind : findChat chats c.id c.userId with
    | none =>
      exfalso
      have := List.find?_eq_none.mp hfind c hmem
      simp at this
    | some x =>
      have hpx := List.find?_some hfind
      have hxmem := List.mem_of_find?_eq_some hfind
      have hid : x.id = c.id := by
        have := (Bool.and_eq_true _ _).mp hpx
        exact eq_of_beq this.1
      have hxc : x = c := huniq x hxmem c hmem hid
      simp [getChatById, hvalid, hfind, hxc]

/-- A concrete chat owned by user `"A"`. -/
def sampleChatA : ChatDoc :=
  { id := "aaaaaaaaaaaaaaaaaaaaaaaa"
    userId := "A"
    title := none
    status := "active"
    settings := ⟨100, false, 30⟩
    tags := []
    initialPrompt := none
    prompts := []
    messages := [] }

/-- Concrete instantiation of `C4_getChatById_ownership` on a one-chat
collection owned by `"A"`, queried by `"B"`, by `"A"`, and with a malformed
id. -/
theorem C4_getChatById_ownership_witness :
    getChatById [sampleChatA] sampleChatA.id "B" =
      .error (ApiError.notFound "Chat not found") ∧
    getChatById [sampleChatA] "zz" "A" =
      .error (ApiError.badRequest "Invalid chat ID") ∧
    getChatById [sampleChatA] sampleChatA.id "A" = .ok sampleChatA := by
  have huniq : UniqueChatIds [sampleChatA] := by
    intro c₁ h₁ c₂ h₂ _
    simp only [List.mem_singleton] at h₁ h₂
    rw [h₁, h₂]
  refine ⟨?_, ?_, ?_⟩
  · exact C4_getChatById_ownership.1 [sampleChatA] sampleChatA "B"
      huniq (by decide) (by decide) (by decide)
  · exact C4_getChatById_ownership.2.1 [sampleChatA] "zz" "A" (by decide)
  · exact C4_getChatById_ownership.2.2 [sampleChatA] sampleChatA
      huniq (by decide) (by decide)

/-! ## sendMessage and the default prompt (ChatService.sendMessage) -/

/-- The default prompt data `sendMessage` creates when a chat has no active
prompt; `freshId` is the `_id` mongoose assigns to the new sub-document. -/
def defaultPrompt (freshId : String) : Prompt :=
  { id := freshId
    background := some "General conversation"
    category := some "other"
    profile := { name := some "Assistant", designation := some "AI Helper", age := none }
    isActive := true }

/-- The `activePrompts` virtual (thread-based schema revision,
`src/unnamed/part_006`): the prompts whose `isActive` flag is set. -/
def activePrompts (c : ChatDoc) : List Prompt :=
  c.prompts.filter (fun p => p.isActive)

/-- `chatSchema.methods.addPrompt`: push the prompt, return the pushed
sub-document. -/
def addPrompt (c : ChatDoc) (p : Prompt) : ChatDoc × Prompt :=
  ({ c with prompts := c.prompts ++ [p] }, p)

/-- The `find`-then-push of `chatSchema.methods.addMessage`: append `m` to
the first non-deleted thread with the given id. -/
def addToThread (ths : List MessageThread) (threadId : String)
    (m : IndividualMessage) : List MessageThread :=
  match ths with
  | [] => []
  | th :: rest =>
    if th.id == threadId && !th.deleted then
      { th with messages := th.messages ++ [m] } :: rest
    else th :: addToThread rest threadId m

/-- `chatSchema.methods.addMessage(threadId, role, content, metadata)`
(thread-based schema revision): append to the existing non-deleted thread
with that id, else create a new thread holding the single message.  (The
`metadata` argument is not consulted by any property below.) -/
def chatAddMessage (c : ChatDoc) (threadId role content : String) (now : Nat) :
    ChatDoc :=
  if c.messages.any (fun th => th.id == threadId && !th.deleted) then
    { c with messages := addToThread c.messages threadId ⟨role, content, now⟩ }
  else
    { c with messages := c.messages ++ [⟨threadId, [⟨role, content, now⟩], false⟩] }

/-- `ChatService.sendMessage` after the `getChatById` fetch, for a string
`userMessage` (the defensive object coercion is the identity on strings):
resolve the target prompt — the explicit `promptId` if given, else the first
active prompt, else create and save the default prompt — then invoke
`chat.addMessage(activePromptId, threadId, "user", messageContent, {…})`
with `threadId = "main"`; against the thread-based schema's
`addMessage(threadId, role, content, metadata)` these positional arguments
bind as `threadId := activePromptId`, `role := "main"`, `content := "user"`,
`metadata := messageContent`.  Returns the resulting chat and the resolved
prompt id. -/
def sendMessage (chat : ChatDoc) (userMessage : String)
    (promptId : Option String) (freshId : String) (now : Nat) :
    ChatDoc × String :=
  let resolved : ChatDoc × String :=
    match promptId with
    | some p => (chat, p)
    | none =>
      match activePrompts chat with
      | p :: _ => (chat, p.id)
      | [] =>
        let r := addPrompt chat (defaultPrompt freshId)
        (r.1, r.2.id)
  let chat2 := chatAddMessage resolved.1 resolved.2 "main" "user" now
  (chat2, resolved.2)

/-- `chatAddMessage` never touches the `prompts` array. -/
theorem chatAddMessage_prompts (c : ChatDoc) (tid r ct : String) (now : Nat) :
    (chatAddMessage c tid r ct now).prompts = c.prompts := by
  rw [chatAddMessage]
  split <;> rfl

/-- **C5.**  `sendMessage` resolves the target prompt as: the explicit
`promptId` if given, else the chat's first active prompt, else a freshly
created default prompt; and two sequential `sendMessage` calls on a chat with
no prompts and no explicit `promptId` create exactly one default prompt — the
second call reuses the prompt the first call created. -/
theorem C5_sendMessage_default_prompt :
    (∀ (chat : ChatDoc) (m p f : String) (now : Nat),
        (sendMessage chat m (some p) f now).2 = p ∧
        (sendMessage chat m (some p) f now).1.prompts = chat.prompts) ∧
    (∀ (chat : ChatDoc) (m f : String) (now : Nat) (p : Prompt)
        (ps : List Prompt),
        activePrompts chat = p :: ps →
        (sendMessage chat m none f now).2 = p.id ∧
        (sendMessage chat m none f now).1.prompts = chat.prompts) ∧
    (∀ (chat : ChatDoc) (m f : String) (now : Nat),
        activePrompts chat = [] →
        (sendMessage chat m none f now).2 = f ∧
        (sendMessage chat m none f now).1.prompts =
          chat.prompts ++ [defaultPrompt f]) ∧
    (∀ (chat : ChatDoc) (m₁ m₂ f₁ f₂ : String) (t₁ t₂ : Nat),
        chat.prompts = [] →
        (sendMessage (sendMessage chat m₁ none f₁ t₁).1 m₂ none f₂ t₂).1.prompts =
          [defaultPrompt f₁] ∧
        (sendMessage (sendMessage chat m₁ none f₁ t₁).1 m₂ none f₂ t₂).2 = f₁) := by
  refine ⟨?_, ?_, ?_, ?_⟩
  · intro chat m p f now
    exact ⟨rfl, chatAddMessage_prompts _ _ _ _ _⟩
  · intro chat m f now p ps hact
    constructor
    · simp [sendMessage, hact]
    · simp [sendMessage, hact, chatAddMessage_prompts]
  · intro chat m f now hact
    constructor
    · simp [sendMessage, hact, addPrompt, defaultPrompt]
    · simp [sendMessage, hact, chatAddMessage_prompts, addPrompt]
  · intro chat m₁ m₂ f₁ f₂ t₁ t₂ hps
    have hact : activePrompts chat = [] := by
      simp [activePrompts, hps]
    have h1 : (sendMessage chat m₁ none f₁ t₁).1.prompts =
        [defaultPrompt f₁] := by
      simp [sendMessage, hact, chatAddMessage_prompts, addPrompt, hps]
    have hact1 : activePrompts (sendMessage chat m₁ none f₁ t₁).1 =
        [defaultPrompt f₁] := by
      simp [activePrompts, h1, defaultPrompt]
    constructor
    · set c1 := (sendMessage chat m₁ none f₁ t₁).1 with hc1
      rw [sendMessage]
      simp only [hact1, chatAddMessage_prompts]
      exact h1
    · set c1 := (sendMessage chat m₁ none f₁ t₁).1 with hc1
      rw [sendMessage]
      simp [hact1, defaultPrompt]

/-- A concrete chat with no prompts for the `C5` witness. -/
def emptyPromptChat : ChatDoc :=
  { sampleChatA with id := "cccccccccccccccccccccccc" }

/-- Concrete instantiation of `C5_sendMessage_default_prompt`: two sequential
`sendMessage` calls with no explicit prompt id on a chat with no prompts end
with exactly the one default prompt created by the first call. -/
theorem C5_sendMessage_default_prompt_witness :
    (sendMessage (sendMessage emptyPromptChat "hi" none "p1" 0).1
        "again" none "p2" 1).1.prompts = [defaultPrompt "p1"] ∧
    (sendMessage (sendMessage emptyPromptChat "hi" none "p1" 0).1
        "again" none "p2" 1).2 = "p1" ∧
    (sendMessage emptyPromptChat "hi" none "p1" 0).2 = "p1" := by
  refine ⟨?_, ?_, ?_⟩
  · exact (C5_sendMessage_default_prompt.2.2.2 emptyPromptChat
      "hi" "again" "p1" "p2" 0 1 rfl).1
  · exact (C5_sendMessage_default_prompt.2.2.2 emptyPromptChat
      "hi" "again" "p1" "p2" 0 1 rfl).2
  · exact (C5_sendMessage_default_prompt.2.2.1 emptyPromptChat
      "hi" "p1" 0 rfl).1

/-! ## Chat statistics (ChatService.getChatStatistics /
calculateAverageResponseTime) -/

/-- A role-tagged, timestamped message record as consumed by
`ChatService.getChatStatistics` (`msg.role`, `msg.timestamp` in milliseconds,
`msg.metadata?.tokenCount`). -/
structure StatMessage where
  role : String
  timestamp : Nat
  tokenCount : Option Nat
deriving DecidableEq, Repr

/-- The `pairs` array built by `ChatService.calculateAverageResponseTime`:
the loop over `i < messages.length - 1` pushes
`messages[i+1].timestamp - messages[i].timestamp` whenever `messages[i]` has
role `user` and `messages[i+1]` has role `assistant`. -/
def responsePairs : List StatMessage → List Int
  | m₁ :: m₂ :: rest =>
    if m₁.role = "user" ∧ m₂.role = "assistant" then
      ((m₂.timestamp : Int) - (m₁.timestamp : Int)) :: responsePairs (m₂ :: rest)
    else responsePairs (m₂ :: rest)
  | _ => []

/-- `ChatService.calculateAverageResponseTime`: 0 when there are no pairs,
else the mean of the deltas (JavaScript number division, modelled in `ℚ`). -/
def calculateAverageResponseTime (messages : List StatMessage) : ℚ :=
  let pairs := responsePairs messages
  if pairs.length = 0 then 0
  else (pairs.sum : ℚ) / (pairs.length : ℚ)

/-- The statistics object assembled by `ChatService.getChatStatistics`
(`lastActivity`, `createdAt` and `updatedAt` are echoes of stored fields and
are not modelled). -/
structure ChatStats where
  totalMessages : Nat
  totalTokens : Nat
  userMessages : Nat
  assistantMessages : Nat
  systemMessages : Nat
  averageResponseTime : ℚ
deriving DecidableEq, Repr

/-- `ChatService.getChatStatistics` on the (timestamp-sorted, non-deleted)
message list of the chat. -/
def getChatStatistics (messages : List StatMessage) : ChatStats :=
  { totalMessages := messages.length
    totalTokens := (messages.map (fun m => m.tokenCount.getD 0)).sum
    userMessages := (messages.filter (fun m => m.role == "user")).length
    assistantMessages := (messages.filter (fun m => m.role == "assistant")).length
    systemMessages := (messages.filter (fun m => m.role == "system")).length
    averageResponseTime := calculateAverageResponseTime messages }

/-- The specification's description of the pairing, stated independently of
the loop: adjacent pairs of the stored order, kept when the first partner is a
`user` message and its immediate successor an `assistant` message, taking the
timestamp delta (user messages with no immediately following assistant
message contribute nothing). -/
def specResponseDeltas (messages : List StatMessage) : List Int :=
  (messages.zip messages.tail).filterMap (fun q =>
    if q.1.role = "user" ∧ q.2.role = "assistant" then
      some ((q.2.timestamp : Int) - (q.1.timestamp : Int))
    else none)

/-- **C6.**  `getChatStatistics` computes `averageResponseTime` by pairing
each user message with the immediately following assistant message (the
loop's pairs coincide with the declarative adjacent-pair description, so
unpaired user messages are excluded), zero pairs yield 0, and the sequence
`[user@0ms, assistant@100ms, user@150ms]` yields exactly 100. -/
theorem C6_average_response_time :
    (∀ messages : List StatMessage,
        responsePairs messages = specResponseDeltas messages) ∧
    (∀ messages : List StatMessage,
        responsePairs messages = [] →
        (getChatStatistics messages).averageResponseTime = 0) ∧
    (getChatStatistics
        [⟨"user", 0, none⟩, ⟨"assistant", 100, none⟩, ⟨"user", 150, none⟩]).averageResponseTime
      = 100 := by
  refine ⟨?_, ?_, ?_⟩
  · intro messages
    induction messages with
    | nil => rfl
    | cons m₁ rest ih =>
      cases rest with
      | nil => rfl
      | cons m₂ rest' =>
        by_cases h : m₁.role = "user" ∧ m₂.role = "assistant" <;>
          simp [responsePairs, specResponseDeltas, h] <;>
          simpa [specResponseDeltas] using ih
  · intro messages hnone
    simp [getChatStatistics, calculateAverageResponseTime, hnone]
  · simp [getChatStatistics, calculateAverageResponseTime, responsePairs]

/-- Concrete instantiation of the zero-pairs conjunct of
`C6_average_response_time`: two user messages in a row produce no pairs and
an average of 0. -/
theorem C6_average_response_time_witness :
    (getChatStatistics
        [⟨"user", 0, none⟩, ⟨"user", 50, none⟩]).averageResponseTime = 0 := by
  exact C6_average_response_time.2.1
    [⟨"user", 0, none⟩, ⟨"user", 50, none⟩] (by decide)

/-! ## Chat export (ChatService.exportChat / formatChatAsCSV) -/

/-- A message entry of the `exportData` object built by
`ChatService.exportChat` (`role`, `content`, `timestamp` and
`metadata?.tokenCount`). -/
structure ExportMessage where
  role : String
  content : String
  timestamp : Nat
  tokenCount : Option Nat
deriving DecidableEq, Repr

/-- The `exportData` object of `ChatService.exportChat` (its `statistics`
echo is consumed only by the abstract JSON rendering and is not modelled). -/
structure ExportData where
  chatId : String
  title : String
  createdAt : Nat
  messages : List ExportMessage
deriving DecidableEq, Repr

/-- `content.replace(/"/g, '""')`: the global single-character regex replace,
doubling every double-quote. -/
def escapeQuotes (s : String) : String :=
  String.mk (s.data.foldr
    (fun c acc => if c = '"' then '"' :: '"' :: acc else c :: acc) [])

/-- JavaScript `String.prototype.toLowerCase` on the ASCII format names,
modelled characterwise. -/
def toLowerCase (s : String) : String :=
  String.mk (s.data.map Char.toLower)

/-- JavaScript `String.prototype.toUpperCase`, modelled characterwise. -/
def toUpperCase (s : String) : String :=
  String.mk (s.data.map Char.toUpper)

/-- One CSV data row of `ChatService.formatChatAsCSV`:
`${index+1},"${role}","${timestamp}","${content}",${tokenCount}\n` with the
content quote-escaped and `tokenCount` defaulted to 0 (numbers render as
their decimal digits; the `Date` timestamp is rendered via its numeric
value). -/
def formatCSVRow (index : Nat) (m : ExportMessage) : String :=
  Nat.repr (index + 1) ++ ",\"" ++ m.role ++ "\",\"" ++
    Nat.repr m.timestamp ++ "\",\"" ++ escapeQuotes m.content ++ "\"," ++
    Nat.repr (m.tokenCount.getD 0) ++ "\n"

/-- `ChatService.formatChatAsCSV`: the header line followed by one row per
message, accumulated in stored order. -/
def formatChatAsCSV (d : ExportData) : String :=
  d.messages.enum.foldl (fun csv q => csv ++ formatCSVRow q.1 q.2)
    "Index,Role,Timestamp,Content,TokenCount\n"

/-- `ChatService.formatChatAsText`: numbered, role-tagged transcript. -/
def formatChatAsText (d : ExportData) : String :=
  d.messages.enum.foldl
    (fun text q =>
      text ++ Nat.repr (q.1 + 1) ++ ". [" ++ toUpperCase q.2.role ++ "] (" ++
        Nat.repr q.2.timestamp ++ ")\n" ++ q.2.content ++ "\n\n")
    ("Chat: " ++ d.title ++ "\n" ++ "Created: " ++ Nat.repr d.createdAt ++ "\n\n")

/-- `ChatService.exportChat` after the `getChatById` fetch: `format` defaults
to `"json"`; the lower-cased format selects the text, CSV or (default)
pretty-printed JSON rendering, the latter modelled by the abstract
`jsonStringifyPretty` argument standing for `JSON.stringify(exportData,
null, 2)`. -/
def exportChat (d : ExportData) (format : Option String)
    (jsonStringifyPretty : ExportData → String) : String :=
  match toLowerCase (format.getD "json") with
  | "txt" => formatChatAsText d
  | "csv" => formatChatAsCSV d
  | _ => jsonStringifyPretty d

/-- Number of newline characters in a string; a string whose final character
is a newline consists of exactly that many lines. -/
def countNewlines (s : String) : Nat :=
  s.data.count '\n'

theorem digitChar_ne_newline (n : Nat) : Nat.digitChar n ≠ '\n' := by
  by_cases h : n < 16
  · interval_cases n <;> decide
  · obtain ⟨m, rfl⟩ : ∃ m, n = m + 16 := ⟨n - 16, by omega⟩
    simp +arith [Nat.digitChar]

theorem toDigitsCore_ne_newline (b f : Nat) :
    ∀ (n : Nat) (ds : List Char), (∀ c ∈ ds, c ≠ '\n') →
      ∀ c ∈ Nat.toDigitsCore b f n ds, c ≠ '\n' := by
  induction f with
  | zero =>
    intro n ds h
    simpa [Nat.toDigitsCore] using h
  | succ f ih =>
    intro n ds h c hc
    rw [Nat.toDigitsCore] at hc
    split at hc
    · rcases List.mem_cons.mp hc with rfl | hmem
      · exact digitChar_ne_newline _
      · exact h c hmem
    · refine ih (n / b) (Nat.digitChar (n % b) :: ds) ?_ c hc
      intro c' hc'
      rcases List.mem_cons.mp hc' with rfl | hmem
      · exact digitChar_ne_newline _
      · exact h c' hmem

/-- The decimal rendering of a natural number contains no newline. -/
theorem countNewlines_natRepr (n : Nat) : countNewlines (Nat.repr n) = 0 := by
  rw [countNewlines, List.count_eq_zero]
  intro h
  exact toDigitsCore_ne_newline 10 (n + 1) n [] (by simp) '\n' h rfl

theorem countNewlines_append (s t : String) :
    countNewlines (s ++ t) = countNewlines s + countNewlines t := by
  simp [countNewlines, String.data_append, List.count_append]

/-- Quote-escaping preserves the newline count. -/
theorem countNewlines_escapeQuotes (s : String) :
    countNewlines (escapeQuotes s) = countNewlines s := by
  rcases s with ⟨l⟩
  simp only [escapeQuotes, countNewlines]
  induction l with
  | nil => rfl
  | cons c l ih =>
    by_cases hc : c = '"'
    · subst hc
      simp [List.count_cons, ih]
    · simp [List.count_cons, hc, ih]

/-- Quote-escaping doubles the number of double-quote characters. -/
theorem escapeQuotes_doubles (s : String) :
    (escapeQuotes s).data.count '"' = 2 * s.data.count '"' := by
  rcases s with ⟨l⟩
  simp only [escapeQuotes]
  induction l with
  | nil => rfl
  | cons c l ih =>
    by_cases hc : c = '"'
    · subst hc
      simp [List.count_cons, ih]
      ring
    · simp [List.count_cons, hc, ih]

/-- A CSV row for a message whose content and role contain no newline
consists of exactly one line. -/
theorem countNewlines_formatCSVRow (i : Nat) (m : ExportMessage)
    (hc : countNewlines m.content = 0) (hr : countNewlines m.role = 0) :
    countNewlines (formatCSVRow i m) = 1 := by
  simp only [formatCSVRow, countNewlines_append, countNewlines_natRepr,
    countNewlines_escapeQuotes, hc, hr]
  decide

/-- Newline count of the CSV row accumulator. -/
theorem countNewlines_csv_foldl (l : List (Nat × ExportMessage)) (init : String)
    (h : ∀ q ∈ l, countNewlines (formatCSVRow q.1 q.2) = 1) :
    countNewlines (l.foldl (fun csv q => csv ++ formatCSVRow q.1 q.2) init) =
      countNewlines init + l.length := by
  induction l generalizing init with
  | nil => simp
  | cons q l ih =>
    simp only [List.foldl_cons, List.length_cons]
    rw [ih _ (fun q' hq' => h q' (List.mem_cons_of_mem _ hq')),
      countNewlines_append, h q (List.mem_cons_self _ _)]
    omega

/-- **C7.**  `exportChat` with no supplied format produces the pretty-printed
JSON rendering; format `"csv"` produces the `formatChatAsCSV` output, which
is one header line plus exactly one row per message in stored order (for
newline-free content and roles), with every double-quote in a content field
doubled; in particular a chat with 3 messages exports as exactly 4 lines. -/
theorem C7_exportChat_csv :
    (∀ (d : ExportData) (jstr : ExportData → String),
        exportChat d none jstr = jstr d) ∧
    (∀ (d : ExportData) (jstr : ExportData → String),
        exportChat d (some "csv") jstr = formatChatAsCSV d) ∧
    (∀ s : String, (escapeQuotes s).data.count '"' = 2 * s.data.count '"') ∧
    (∀ d : ExportData,
        (∀ m ∈ d.messages,
          countNewlines m.content = 0 ∧ countNewlines m.role = 0) →
        countNewlines (formatChatAsCSV d) = d.messages.length + 1) ∧
    (formatChatAsCSV
        ⟨"c", "t", 0,
          [⟨"user", "say \"hi\"", 0, none⟩, ⟨"assistant", "ok", 100, some 5⟩,
           ⟨"user", "bye", 150, none⟩]⟩ =
      "Index,Role,Timestamp,Content,TokenCount\n" ++
      "1,\"user\",\"0\",\"say \"\"hi\"\"\",0\n" ++
      "2,\"assistant\",\"100\",\"ok\",5\n" ++
      "3,\"user\",\"150\",\"bye\",0\n") := by
  refine ⟨?_, ?_, ?_, ?_, ?_⟩
  · intro d jstr
    rfl
  · intro d jstr
    rfl
  · exact escapeQuotes_doubles
  · intro d h
    rw [formatChatAsCSV, countNewlines_csv_foldl]
    · rw [List.enum_length]
      have : countNewlines "Index,Role,Timestamp,Content,TokenCount\n" = 1 := by
        decide
      omega
    · intro q hq
      have hmem : q.2 ∈ d.messages := by
        have := List.mem_enum_iff_getElem?.mp hq
        exact List.getElem?_mem this
      exact countNewlines_formatCSVRow q.1 q.2 (h q.2 hmem).1 (h q.2 hmem).2
  · decide

/-- Concrete instantiation of the line-count conjunct of `C7_exportChat_csv`:
the three-message chat of the concrete conjunct exports as exactly 4 lines. -/
theorem C7_exportChat_csv_witness :
    countNewlines (formatChatAsCSV
        ⟨"c", "t", 0,
          [⟨"user", "say \"hi\"", 0, none⟩, ⟨"assistant", "ok", 100, some 5⟩,
           ⟨"user", "bye", 150, none⟩]⟩) = 3 + 1 := by
  exact C7_exportChat_csv.2.2.2.1
    ⟨"c", "t", 0,
      [⟨"user", "say \"hi\"", 0, none⟩, ⟨"assistant", "ok", 100, some 5⟩,
       ⟨"user", "bye", 150, none⟩]⟩ (by decide)

/-! ## updateChat whitelist (ChatService.updateChat) -/

/-- A `settings` patch object inside an update: the three schema keys, each
possibly absent. -/
structure SettingsPatch where
  maxMessages : Option Nat
  autoArchive : Option Bool
  autoArchiveDays : Option Nat
deriving DecidableEq, Repr

/-- A value of the untyped `updates` object: a string, a tag list, or a
`settings` patch. -/
inductive UpdateValue where
  | vStr (s : String)
  | vTags (tags : List String)
  | vSettings (p : SettingsPatch)
deriving DecidableEq, Repr

/-- JavaScript object spread `{...chat.settings, ...updates.settings}` on the
flat three-key settings object: patch keys win, absent keys keep the chat's
stored value. -/
def mergeSettings (old : ChatSettings) (p : SettingsPatch) : ChatSettings :=
  { maxMessages := p.maxMessages.getD old.maxMessages
    autoArchive := p.autoArchive.getD old.autoArchive
    autoArchiveDays := p.autoArchiveDays.getD old.autoArchiveDays }

/-- `updates[key]` on the untyped updates object (association-list model of a
JavaScript object; `none` is `undefined`). -/
def lookupUpdate (updates : List (String × UpdateValue)) (key : String) :
    Option UpdateValue :=
  (updates.find? (fun q => q.1 == key)).map (fun q => q.2)

/-- The `allowedUpdates` whitelist of `ChatService.updateChat`. -/
def allowedUpdates : List String :=
  ["title", "settings", "tags", "status", "initialPrompt"]

/-- The per-key effect of `Object.assign(chat, filteredUpdates)` combined
with the loop body's `key === "settings" && typeof … === "object"` merge: the
value is assigned to the matching document field, the settings object being
merged into the chat's current settings.  A value whose shape does not fit
the field (which the schema would reject on save) leaves the document
unchanged. -/
def applyUpdate (c : ChatDoc) (key : String) (v : UpdateValue) : ChatDoc :=
  if key = "settings" then
    match v with
    | .vSettings p => { c with settings := mergeSettings c.settings p }
    | _ => c
  else if key = "title" then
    match v with
    | .vStr s => { c with title := some s }
    | _ => c
  else if key = "tags" then
    match v with
    | .vTags ts => { c with tags := ts }
    | _ => c
  else if key = "status" then
    match v with
    | .vStr s => { c with status := s }
    | _ => c
  else if key = "initialPrompt" then
    match v with
    | .vStr s => { c with initialPrompt := some s }
    | _ => c
  else c

/-- `ChatService.updateChat` after the ownership-checked fetch: iterate over
`allowedUpdates`, pick each key present in `updates` (`!== undefined`), and
assign the filtered updates onto the chat.  (The source builds
`filteredUpdates` first and assigns once; since each key is assigned at most
once and the settings merge reads the fetched chat's settings, this
coincides with the sequential fold.) -/
def updateChat (c : ChatDoc) (updates : List (String × UpdateValue)) :
    ChatDoc :=
  allowedUpdates.foldl
    (fun acc key =>
      match lookupUpdate updates key with
      | some v => applyUpdate acc key v
      | none => acc) c

/-- Lookup skips an entry whose key differs. -/
theorem lookupUpdate_cons_ne (k key : String) (v : UpdateValue)
    (l : List (String × UpdateValue)) (h : k ≠ key) :
    lookupUpdate ((k, v) :: l) key = lookupUpdate l key := by
  unfold lookupUpdate
  rw [List.find?_cons_of_neg]
  simp [h]

/-- **C8.**  `updateChat` applies only the whitelisted fields: an update
entry with a non-whitelisted key is ignored, an updates object containing
only non-whitelisted keys leaves the stored chat exactly unchanged, and a
`settings` update is shallow-merged into the existing settings — settings
keys absent from the patch retain their stored values. -/
theorem C8_updateChat_whitelist :
    (∀ (c : ChatDoc) (k : String) (v : UpdateValue)
        (updates : List (String × UpdateValue)),
        k ∉ allowedUpdates →
        updateChat c ((k, v) :: updates) = updateChat c updates) ∧
    (∀ (c : ChatDoc) (updates : List (String × UpdateValue)),
        (∀ q ∈ updates, q.1 ∉ allowedUpdates) →
        updateChat c updates = c) ∧
    (∀ (c : ChatDoc) (updates : List (String × UpdateValue))
        (p : SettingsPatch),
        lookupUpdate updates "settings" = some (.vSettings p) →
        (updateChat c updates).settings = mergeSettings c.settings p) ∧
    (∀ (old : ChatSettings) (p : SettingsPatch),
        (p.maxMessages = none →
          (mergeSettings old p).maxMessages = old.maxMessages) ∧
        (p.autoArchive = none →
          (mergeSettings old p).autoArchive = old.autoArchive) ∧
        (p.autoArchiveDays = none →
          (mergeSettings old p).autoArchiveDays = old.autoArchiveDays)) := by
  have tSet : ∀ (acc : ChatDoc) (p : SettingsPatch),
      applyUpdate acc "settings" (.vSettings p) =
        { acc with settings := mergeSettings acc.settings p } := by
    intro acc p
    rfl
  have tA : ∀ (acc : ChatDoc) (v : UpdateValue),
      (applyUpdate acc "title" v).settings = acc.settings := by
    intro acc v
    cases v <;> rfl
  have tT : ∀ (acc : ChatDoc) (v : UpdateValue),
      (applyUpdate acc "tags" v).settings = acc.settings := by
    intro acc v
    cases v <;> rfl
  have tS : ∀ (acc : ChatDoc) (v : UpdateValue),
      (applyUpdate acc "status" v).settings = acc.settings := by
    intro acc v
    cases v <;> rfl
  have tI : ∀ (acc : ChatDoc) (v : UpdateValue),
      (applyUpdate acc "initialPrompt" v).settings = acc.settings := by
    intro acc v
    cases v <;> rfl
  refine ⟨?_, ?_, ?_, ?_⟩
  · intro c k v updates hk
    have hne : ∀ key ∈ allowedUpdates, k ≠ key := by
      intro key hmem heq
      exact hk (heq ▸ hmem)
    simp only [updateChat, allowedUpdates, List.foldl_cons, List.foldl_nil]
    rw [lookupUpdate_cons_ne k "title" v updates (hne "title" (by decide)),
      lookupUpdate_cons_ne k "settings" v updates (hne "settings" (by decide)),
      lookupUpdate_cons_ne k "tags" v updates (hne "tags" (by decide)),
      lookupUpdate_cons_ne k "status" v updates (hne "status" (by decide)),
      lookupUpdate_cons_ne k "initialPrompt" v updates
        (hne "initialPrompt" (by decide))]
  · intro c updates hall
    have hnone : ∀ key ∈ allowedUpdates, lookupUpdate updates key = none := by
      intro key hkey
      unfold lookupUpdate
      rw [List.find?_eq_none.mpr]
      · rfl
      · intro q hq
        simp only [beq_iff_eq]
        intro heq
        exact hall q hq (heq ▸ hkey)
    simp only [updateChat, allowedUpdates, List.foldl_cons, List.foldl_nil,
      hnone "title" (by decide), hnone "settings" (by decide),
      hnone "tags" (by decide), hnone "status" (by decide),
      hnone "initialPrompt" (by decide)]
  · intro c updates p hset
    cases h1 : lookupUpdate updates "title" <;>
      cases h3 : lookupUpdate updates "tags" <;>
        cases h4 : lookupUpdate updates "status" <;>
          cases h5 : lookupUpdate updates "initialPrompt" <;>
            simp only [updateChat, allowedUpdates, List.foldl_cons,
              List.foldl_nil, h1, h3, h4, h5, hset, tSet, tA, tT, tS, tI]
  · intro old p
    refine ⟨?_, ?_, ?_⟩ <;> intro h <;> simp [mergeSettings, h]

/-- Concrete instantiation of `C8_updateChat_whitelist`: an unrecognized key
is dropped, an updates object of only unrecognized keys is a no-op, and a
settings patch setting only `autoArchive` keeps the stored `maxMessages`. -/
theorem C8_updateChat_whitelist_witness :
    updateChat sampleChatA [("ownerOverride", .vStr "evil")] =
      updateChat sampleChatA [] ∧
    updateChat sampleChatA [("ownerOverride", .vStr "evil")] = sampleChatA ∧
    (updateChat sampleChatA
        [("settings", .vSettings ⟨none, some true, none⟩)]).settings =
      mergeSettings sampleChatA.settings ⟨none, some true, none⟩ ∧
    (mergeSettings sampleChatA.settings ⟨none, some true, none⟩).maxMessages =
      sampleChatA.settings.maxMessages := by
  refine ⟨?_, ?_, ?_, ?_⟩
  · exact C8_updateChat_whitelist.1 sampleChatA "ownerOverride" (.vStr "evil")
      [] (by decide)
  · exact C8_updateChat_whitelist.2.1 sampleChatA
      [("ownerOverride", .vStr "evil")] (by decide)
  · exact C8_updateChat_whitelist.2.2.1 sampleChatA
      [("settings", .vSettings ⟨none, some true, none⟩)]
      ⟨none, some true, none⟩ (by decide)
  · exact (C8_updateChat_whitelist.2.2.2 sampleChatA.settings
      ⟨none, some true, none⟩).1 rfl

/-! ## deletePrompt soft delete (ChatService.deletePrompt + Chat model) -/

/-- Flip `isActive` off on the first prompt with the given id: the in-place
mutation of the sub-document returned by `this.prompts.id(promptId)`. -/
def deactivateFirst (ps : List Prompt) (promptId : String) : List Prompt :=
  match ps with
  | [] => []
  | p :: rest =>
    if p.id = promptId then { p with isActive := false } :: rest
    else p :: deactivateFirst rest promptId

/-- `chatSchema.methods.deactivatePrompt`: look the prompt up by `_id`
(regardless of its `isActive` flag); if found, set `isActive := false` and
return the updated chat, else `none` (the method returns `null`). -/
def deactivatePrompt (c : ChatDoc) (promptId : String) : Option ChatDoc :=
  if c.prompts.any (fun p => p.id == promptId) then
    some { c with prompts := deactivateFirst c.prompts promptId }
  else none

/-- `chat.save()`: write the updated chat document back into the collection
at its `_id`. -/
def saveChat (chats : List ChatDoc) (c : ChatDoc) : List ChatDoc :=
  chats.map (fun x => if x.id == c.id then c else x)

/-- `ChatService.deletePrompt` for an authenticated caller (the `userId`
branch of the filter): validate both ids, fetch the chat by `(id, owner)`,
deactivate the prompt, save; returns `true`. -/
def deletePrompt (chats : List ChatDoc) (chatId userId promptId : String) :
    Except ApiError (List ChatDoc × Bool) :=
  if isValidObjectId chatId && isValidObjectId promptId then
    match findChat chats chatId userId with
    | none => .error (ApiError.notFound "Chat not found")
    | some chat =>
      match deactivatePrompt chat promptId with
      | none => .error (ApiError.notFound "Prompt not found")
      | some chat' => .ok (saveChat chats chat', true)
  else .error (ApiError.badRequest "Invalid chat ID or prompt ID")

/-- Everything except the `isActive` flag of a prompt. -/
def promptData (p : Prompt) :
    String × Option String × Option String × PromptProfile :=
  (p.id, p.background, p.category, p.profile)

/-- Deactivation preserves every prompt's stored data. -/
theorem deactivateFirst_map_promptData (ps : List Prompt) (pid : String) :
    (deactivateFirst ps pid).map promptData = ps.map promptData := by
  induction ps with
  | nil => rfl
  | cons p rest ih =>
    by_cases h : p.id = pid
    · simp [deactivateFirst, h, promptData]
    · simp [deactivateFirst, h, promptData, ih]

/-- Deactivation preserves the number of stored prompts. -/
theorem deactivateFirst_length (ps : List Prompt) (pid : String) :
    (deactivateFirst ps pid).length = ps.length := by
  have := congrArg List.length (deactivateFirst_map_promptData ps pid)
  simpa using this

/-- Deactivating twice equals deactivating once. -/
theorem deactivateFirst_idem (ps : List Prompt) (pid : String) :
    deactivateFirst (deactivateFirst ps pid) pid = deactivateFirst ps pid := by
  induction ps with
  | nil => rfl
  | cons p rest ih =>
    by_cases h : p.id = pid
    · simp [deactivateFirst, h]
    · simp [deactivateFirst, h, ih]

/-- Deactivation preserves the prompt id listing. -/
theorem deactivateFirst_map_id (ps : List Prompt) (pid : String) :
    (deactivateFirst ps pid).map Prompt.id = ps.map Prompt.id := by
  have := congrArg (List.map (fun q => q.1)) (deactivateFirst_map_promptData ps pid)
  simpa [promptData, Function.comp] using this

/-- After deactivation the first prompt with the target id is inactive. -/
theorem deactivateFirst_find (ps : List Prompt) (pid : String)
    (h : ps.any (fun p => p.id == pid) = true) :
    ∃ q, (deactivateFirst ps pid).find? (fun p => p.id == pid) = some q ∧
      q.isActive = false := by
  induction ps with
  | nil => simp at h
  | cons p rest ih =>
    by_cases hp : p.id = pid
    · refine ⟨{ p with isActive := false }, ?_, rfl⟩
      simp [deactivateFirst, hp, List.find?_cons_of_pos]
    · have hrest : rest.any (fun q => q.id == pid) = true := by
        simpa [List.any_cons, hp] using h
      rcases ih hrest with ⟨q, hq, hqa⟩
      refine ⟨q, ?_, hqa⟩
      rw [deactivateFirst, if_neg hp, List.find?_cons_of_neg _ (by simp [hp])]
      exact hq

/-- The save of an updated chat carrying the same `_id` and owner is found
again by the same `(id, owner)` query. -/
theorem findChat_saveChat (chats : List ChatDoc) (chat c' : ChatDoc)
    (chatId userId : String) (huniq : UniqueChatIds chats)
    (hfind : findChat chats chatId userId = some chat)
    (hid : c'.id = chat.id) (huid : c'.userId = chat.userId) :
    findChat (saveChat chats c') chatId userId = some c' := by
  induction chats with
  | nil => simp [findChat] at hfind
  | cons x rest ih =>
    rw [findChat, List.find?_cons] at hfind
    by_cases px : (x.id == chatId && x.userId == userId) = true
    · rw [px] at hfind
      have hx : x = chat := Option.some_injective _ hfind
      have hxid : (x.id == c'.id) = true := by
        simp [hx, hid]
      have hpc' : (c'.id == chatId && c'.userId == userId) = true := by
        rw [hx] at px
        simp only [Bool.and_eq_true, beq_iff_eq] at px ⊢
        exact ⟨hid.trans px.1, huid.trans px.2⟩
      rw [findChat, saveChat, List.map_cons, if_pos hxid,
        List.find?_cons, hpc']
    · have px' : (x.id == chatId && x.userId == userId) = false := by
        simpa using px
      rw [px'] at hfind
      have hfind0 : List.find? (fun c => c.id == chatId && c.userId == userId)
          rest = some chat := hfind
      have hchatmem : chat ∈ rest :=
        List.mem_of_find?_eq_some hfind0
      have hpchat := List.find?_some hfind0
      have hxid : ¬ (x.id == c'.id) = true := by
        intro hxe
        have hxc : x = chat := by
          apply huniq x (List.mem_cons_self _ _) chat
            (List.mem_cons_of_mem _ hchatmem)
          have hbe := beq_iff_eq.mp hxe
          rw [hbe, hid]
        exact px (hxc ▸ hpchat)
      have huniq' : UniqueChatIds rest := by
        intro a ha b hb
        exact huniq a (List.mem_cons_of_mem _ ha) b (List.mem_cons_of_mem _ hb)
      have hfind' : findChat rest chatId userId = some chat := by
        rw [findChat]
        exact hfind0
      have hrec := ih huniq' hfind'
      rw [findChat, saveChat] at hrec
      rw [findChat, saveChat, List.map_cons, if_neg hxid,
        List.find?_cons, px']
      exact hrec

/-- Saving the same document twice is the same as saving it once. -/
theorem saveChat_idem (chats : List ChatDoc) (c : ChatDoc) :
    saveChat (saveChat chats c) c = saveChat chats c := by
  simp only [saveChat, List.map_map]
  apply List.map_congr_left
  intro a _
  by_cases ha : (a.id == c.id) = true
  · simp [Function.comp, ha]
  · simp [Function.comp, ha]

/-- **C9.**  `deletePrompt` never removes a prompt sub-document: it only
clears the `isActive` flag, preserving the number of prompts and all their
data; and the operation is idempotent — after a first successful call, a
second `deletePrompt` on the same prompt also succeeds (returning `true`),
changes nothing further, and the prompt remains stored and inactive. -/
theorem C9_deletePrompt_soft_idempotent :
    (∀ (ps : List Prompt) (pid : String),
        (deactivateFirst ps pid).length = ps.length ∧
        (deactivateFirst ps pid).map promptData = ps.map promptData) ∧
    (∀ (chats : List ChatDoc) (chatId userId pid : String) (chat : ChatDoc),
        UniqueChatIds chats →
        isValidObjectId chatId = true → isValidObjectId pid = true →
        findChat chats chatId userId = some chat →
        chat.prompts.any (fun p => p.id == pid) = true →
        ∃ chats₁,
          deletePrompt chats chatId userId pid = .ok (chats₁, true) ∧
          deletePrompt chats₁ chatId userId pid = .ok (chats₁, true) ∧
          ∃ chat₁, findChat chats₁ chatId userId = some chat₁ ∧
            chat₁.prompts = deactivateFirst chat.prompts pid ∧
            ∃ q, chat₁.prompts.find? (fun p => p.id == pid) = some q ∧
              q.isActive = false) := by
  constructor
  · intro ps pid
    exact ⟨deactivateFirst_length ps pid, deactivateFirst_map_promptData ps pid⟩
  · intro chats chatId userId pid chat huniq hvc hvp hfind hany
    have hvalid : (isValidObjectId chatId && isValidObjectId pid) = true := by
      simp [hvc, hvp]
    set chat₁ : ChatDoc := { chat with prompts := deactivateFirst chat.prompts pid }
      with hchat₁
    have hdeact : deactivatePrompt chat pid = some chat₁ := by
      simp [deactivatePrompt, hany, hchat₁]
    set chats₁ := saveChat chats chat₁ with hchats₁
    have hfirst : deletePrompt chats chatId userId pid = .ok (chats₁, true) := by
      simp only [deletePrompt, hvalid, if_true, hfind, hdeact]
    have hfind₁ : findChat chats₁ chatId userId = some chat₁ :=
      findChat_saveChat chats chat chat₁ chatId userId huniq hfind rfl rfl
    have hanyMap : ∀ l : List Prompt,
        l.any (fun p => p.id == pid) = (l.map Prompt.id).any (fun i => i == pid) := by
      intro l
      induction l with
      | nil => rfl
      | cons p rest ih => simp [List.any_cons, ih]
    have hany₁ : chat₁.prompts.any (fun p => p.id == pid) = true := by
      have hmap : chat₁.prompts.map Prompt.id = chat.prompts.map Prompt.id :=
        deactivateFirst_map_id chat.prompts pid
      rw [hanyMap, hmap, ← hanyMap]
      exact hany
    have hdeact₁ : deactivatePrompt chat₁ pid = some chat₁ := by
      rw [deactivatePrompt, if_pos hany₁]
      have : deactivateFirst chat₁.prompts pid = chat₁.prompts := by
        show deactivateFirst (deactivateFirst chat.prompts pid) pid = _
        exact deactivateFirst_idem chat.prompts pid
      rw [this]
    have hsecond : deletePrompt chats₁ chatId userId pid = .ok (chats₁, true) := by
      simp only [deletePrompt, hvalid, if_true, hfind₁, hdeact₁]
      rw [hchats₁, saveChat_idem]
    refine ⟨chats₁, hfirst, hsecond, chat₁, hfind₁, rfl, ?_⟩
    exact deactivateFirst_find chat.prompts pid hany

/-- A concrete chat holding one active prompt, for the `C9` witness. -/
def promptedChat : ChatDoc :=
  { sampleChatA with
    id := "dddddddddddddddddddddddd"
    prompts := [{ id := "eeeeeeeeeeeeeeeeeeeeeeee"
                  background := some "bg"
                  category := some "other"
                  profile := ⟨some "P", some "Dev", some 30⟩
                  isActive := true }] }

/-- Concrete instantiation of `C9_deletePrompt_soft_idempotent`: deleting the
single prompt of `promptedChat` twice succeeds both times, keeps the prompt
stored, and leaves it inactive. -/
theorem C9_deletePrompt_soft_idempotent_witness :
    ∃ chats₁,
      deletePrompt [promptedChat] promptedChat.id "A"
          "eeeeeeeeeeeeeeeeeeeeeeee" = .ok (chats₁, true) ∧
      deletePrompt chats₁ promptedChat.id "A"
          "eeeeeeeeeeeeeeeeeeeeeeee" = .ok (chats₁, true) ∧
      ∃ chat₁, findChat chats₁ promptedChat.id "A" = some chat₁ ∧
        chat₁.prompts =
          deactivateFirst promptedChat.prompts "eeeeeeeeeeeeeeeeeeeeeeee" ∧
        ∃ q, chat₁.prompts.find?
            (fun p => p.id == "eeeeeeeeeeeeeeeeeeeeeeee") = some q ∧
          q.isActive = false := by
  have huniq : UniqueChatIds [promptedChat] := by
    intro c₁ h₁ c₂ h₂ _
    simp only [List.mem_singleton] at h₁ h₂
    rw [h₁, h₂]
  exact C9_deletePrompt_soft_idempotent.2 [promptedChat] promptedChat.id "A"
    "eeeeeeeeeeeeeeeeeeeeeeee" promptedChat huniq (by decide) (by decide)
    (by decide) (by decide)

/-! ## Embedded-message schema revision: addMessage eviction

From `chatSchema.methods.addMessage(role, content, metadata)` of the
embedded-message schema revision in `src/unnamed/part_006`.
-/

/-- A message of the embedded-message schema revision (the schema restricts
`role` to user/assistant/system; `metadata` is stored verbatim and not
consulted by `addMessage`). -/
structure EmbMessage where
  role : String
  content : String
  timestamp : Nat
deriving DecidableEq, Repr

/-- A chat of the embedded-message schema revision, restricted to the fields
`addMessage` reads. -/
structure EmbChat where
  messages : List EmbMessage
  settings : ChatSettings
deriving DecidableEq, Repr

/-- `chatSchema.methods.addMessage(role, content, metadata)` of the
embedded-message schema revision: when the messages array has reached
`settings.maxMessages` and at least `settings.maxMessages` of the stored
messages are non-system, remove the oldest non-system message
(`findIndex`/`splice`); then push the new message. -/
def embAddMessage (c : EmbChat) (role content : String) (now : Nat) :
    EmbChat :=
  let msgs :=
    if c.settings.maxMessages ≤ c.messages.length then
      if c.settings.maxMessages ≤
          (c.messages.filter (fun m => m.role != "system")).length then
        match c.messages.findIdx? (fun m => m.role != "system") with
        | some i => c.messages.eraseIdx i
        | none => c.messages
      else c.messages
    else c.messages
  { c with messages := msgs ++ [⟨role, content, now⟩] }

/-- A non-empty filtrate guarantees `findIdx?` succeeds. -/
theorem findIdx?_of_filter_pos {α : Type} (p : α → Bool) :
    ∀ l : List α, 0 < (l.filter p).length → ∃ i, l.findIdx? p = some i := by
  intro l
  induction l with
  | nil => intro h; simp at h
  | cons a rest ih =>
    intro h
    by_cases pa : p a = true
    · exact ⟨0, by simp [List.findIdx?_cons, pa]⟩
    · have h' : 0 < (rest.filter p).length := by
        simpa [List.filter_cons, pa] using h
      rcases ih h' with ⟨i, hi⟩
      exact ⟨i + 1, by simp [List.findIdx?_cons, pa, hi]⟩

/-- Erasing the element found by `findIdx? p` removes exactly one element and
leaves the `q`-filtrate unchanged whenever `p` excludes `q`. -/
theorem eraseIdx_findIdx?_filter {α : Type} (p q : α → Bool)
    (hpq : ∀ m, p m = true → q m = false) :
    ∀ (l : List α) (i : Nat), l.findIdx? p = some i →
      (l.eraseIdx i).filter q = l.filter q ∧
      (l.eraseIdx i).length + 1 = l.length := by
  intro l
  induction l with
  | nil => intro i h; simp [List.findIdx?] at h
  | cons a rest ih =>
    intro i h
    rw [List.findIdx?_cons] at h
    by_cases pa : p a = true
    · rw [if_pos pa] at h
      have hi : i = 0 := by
        simpa using h.symm
      subst hi
      have hqa : q a = false := hpq a pa
      constructor
      · simp [List.eraseIdx, List.filter_cons, hqa]
      · simp [List.eraseIdx]
    · rw [if_neg pa] at h
      rw [List.findIdx?_succ] at h
      rcases Option.map_eq_some'.mp h with ⟨j, hj, hij⟩
      subst hij
      rcases ih j hj with ⟨hfil, hlen⟩
      constructor
      · simp [List.eraseIdx_cons_succ, List.filter_cons, hfil]
      · simpa [List.eraseIdx_cons_succ] using hlen

/-- **C10.**  In the embedded-message schema revision, `addMessage` on a chat
already holding at least `settings.maxMessages` messages, at least
`settings.maxMessages` of them non-system, removes the oldest non-system
message before appending, so the message count does not increase; every
stored system message survives every `addMessage` call; and when fewer than
`maxMessages` of the stored messages are non-system the append proceeds
without eviction, so the count grows by one and can exceed the limit. -/
theorem C10_embedded_addMessage_eviction :
    (∀ (c : EmbChat) (role content : String) (now : Nat),
        0 < c.settings.maxMessages →
        c.settings.maxMessages ≤ c.messages.length →
        c.settings.maxMessages ≤
          (c.messages.filter (fun m => m.role != "system")).length →
        ∃ i, c.messages.findIdx? (fun m => m.role != "system") = some i ∧
          (embAddMessage c role content now).messages =
            c.messages.eraseIdx i ++ [⟨role, content, now⟩] ∧
          (embAddMessage c role content now).messages.length =
            c.messages.length) ∧
    (∀ (c : EmbChat) (role content : String) (now : Nat),
        (embAddMessage c role content now).messages.filter
            (fun m => m.role == "system") =
          c.messages.filter (fun m => m.role == "system") ++
            ([(⟨role, content, now⟩ : EmbMessage)].filter
              (fun m => m.role == "system"))) ∧
    (∀ (c : EmbChat) (role content : String) (now : Nat),
        (c.messages.filter (fun m => m.role != "system")).length <
          c.settings.maxMessages →
        (embAddMessage c role content now).messages =
          c.messages ++ [⟨role, content, now⟩] ∧
        (embAddMessage c role content now).messages.length =
          c.messages.length + 1) := by
  have hpq : ∀ m : EmbMessage,
      (m.role != "system") = true → (m.role == "system") = false := by
    intro m h
    simpa using h
  refine ⟨?_, ?_, ?_⟩
  · intro c role content now hpos hlen hsys
    have hfpos : 0 < (c.messages.filter (fun m => m.role != "system")).length :=
      lt_of_lt_of_le hpos hsys
    rcases findIdx?_of_filter_pos _ c.messages hfpos with ⟨i, hi⟩
    rcases eraseIdx_findIdx?_filter _ _ hpq c.messages i hi with ⟨-, hlen'⟩
    refine ⟨i, hi, ?_, ?_⟩
    · simp only [embAddMessage, if_pos hlen, if_pos hsys, hi]
    · simp only [embAddMessage, if_pos hlen, if_pos hsys, hi,
        List.length_append, List.length_cons, List.length_nil]
      omega
  · intro c role content now
    rw [embAddMessage]
    by_cases hlen : c.settings.maxMessages ≤ c.messages.length
    · by_cases hsys : c.settings.maxMessages ≤
          (c.messages.filter (fun m => m.role != "system")).length
      · cases hi : c.messages.findIdx? (fun m => m.role != "system") with
        | none =>
          simp only [if_pos hlen, if_pos hsys, hi, List.filter_append]
        | some i =>
          rcases eraseIdx_findIdx?_filter _ _ hpq c.messages i hi with ⟨hfil, -⟩
          simp only [if_pos hlen, if_pos hsys, hi, List.filter_append, hfil]
      · simp only [if_pos hlen, if_neg hsys, List.filter_append]
    · simp only [if_neg hlen, List.filter_append]
  · intro c role content now hlt
    have hsys : ¬ c.settings.maxMessages ≤
        (c.messages.filter (fun m => m.role != "system")).length :=
      not_le.mpr hlt
    by_cases hlen : c.settings.maxMessages ≤ c.messages.length
    · constructor
      · simp only [embAddMessage, if_pos hlen, if_neg hsys]
      · simp [embAddMessage, if_pos hlen, if_neg hsys]
    · constructor
      · simp only [embAddMessage, if_neg hlen]
      · simp [embAddMessage, if_neg hlen]

/-- Concrete instantiation of `C10_embedded_addMessage_eviction`: a full chat
(limit 2, two user messages) evicts its oldest message on append, keeping the
count at 2; a chat with only one non-system message among three (limit 2)
appends without eviction and exceeds the limit. -/
theorem C10_embedded_addMessage_eviction_witness :
    (∃ i, (([⟨"user", "a", 0⟩, ⟨"user", "b", 1⟩] :
            List EmbMessage).findIdx? (fun m => m.role != "system")) = some i ∧
      (embAddMessage ⟨[⟨"user", "a", 0⟩, ⟨"user", "b", 1⟩], ⟨2, false, 30⟩⟩
          "user" "c" 2).messages =
        ([⟨"user", "a", 0⟩, ⟨"user", "b", 1⟩] :
          List EmbMessage).eraseIdx i ++ [⟨"user", "c", 2⟩] ∧
      (embAddMessage ⟨[⟨"user", "a", 0⟩, ⟨"user", "b", 1⟩], ⟨2, false, 30⟩⟩
          "user" "c" 2).messages.length = 2) ∧
    ((embAddMessage
        ⟨[⟨"system", "s", 0⟩, ⟨"system", "t", 1⟩, ⟨"user", "a", 2⟩],
          ⟨2, false, 30⟩⟩ "user" "b" 3).messages =
      [⟨"system", "s", 0⟩, ⟨"system", "t", 1⟩, ⟨"user", "a", 2⟩,
        ⟨"user", "b", 3⟩] ∧
     (embAddMessage
        ⟨[⟨"system", "s", 0⟩, ⟨"system", "t", 1⟩, ⟨"user", "a", 2⟩],
          ⟨2, false, 30⟩⟩ "user" "b" 3).messages.length = 4) := by
  constructor
  · exact C10_embedded_addMessage_eviction.1
      ⟨[⟨"user", "a", 0⟩, ⟨"user", "b", 1⟩], ⟨2, false, 30⟩⟩ "user" "c" 2
      (by decide) (by decide) (by decide)
  · have h := C10_embedded_addMessage_eviction.2.2
      ⟨[⟨"system", "s", 0⟩, ⟨"system", "t", 1⟩, ⟨"user", "a", 2⟩],
        ⟨2, false, 30⟩⟩ "user" "b" 3 (by decide)
    exact ⟨h.1, by rw [h.2]; rfl⟩

end Kori
